import Mathlib

/-!
# Verification of the CENIPA aviation-occurrence dashboard ETL pipeline

A shallow embedding of the data-loading/cleaning/joining pipeline of
`src/app.py` and `src/app2.py` (the `load_data` function and the derived
views), together with theorems settling the specification's claims about it.

Modelling conventions:
* a dataframe cell is a `Cell`: either absent (`null`, i.e. pandas `NaN`
  after the `na_values` substitution), a number, or a free-text string
  (kept as `List Char`);
* machine floats are modelled by exact rationals `ℚ` (every decimal literal
  occurring in the pipeline's comparisons is exactly representable);
* a dataframe is a list of per-table row structures; column operations are
  maps/filters over those lists;
* fallible loading is `Option`: `none` models a missing or undecodable file.
-/

namespace Cenipa

/-- One dataframe cell: absent (pandas `NaN`), numeric, or a string. -/
inductive Cell where
  | null
  | int (i : Int)
  | str (s : List Char)
  deriving DecidableEq

/-- `pd.isna` on one cell. -/
def pyIsNa : Cell → Bool
  | .null => true
  | _ => false

/-- Python `str()` on a non-absent cell (`clean_coord` line 36 applies it
after the `pd.isna` guard; integers render in decimal). -/
def pyStr : Cell → List Char
  | .null => []
  | .int i => (toString i).data
  | .str s => s

/-- `str.replace(',', '.')` — every comma becomes a decimal point
(src/app.py line 36). -/
def replaceCommas (s : List Char) : List Char :=
  s.map fun c => if c = ',' then '.' else c

/-- Python `str.strip()`: drop leading and trailing whitespace
(src/app.py line 36). -/
def pyStrip (s : List Char) : List Char :=
  ((s.dropWhile Char.isWhitespace).reverse.dropWhile Char.isWhitespace).reverse

/-- The digits part of one attempted match of the regex `(-?\d+(\.\d+)?)`
anchored at the head of `r`: a nonempty run of digits, then optionally a
point followed by a nonempty run of digits (greedy, as in `re.search`,
src/app.py line 37).  Returns the given sign, the integer digits and the
fractional digits (empty when the optional group fails). -/
def matchDigits (neg : Bool) (r : List Char) : Option (Bool × List Char × List Char) :=
  if r.takeWhile Char.isDigit = [] then none
  else if (r.dropWhile Char.isDigit).head? = some '.' then
    some (neg, r.takeWhile Char.isDigit, (r.dropWhile Char.isDigit).tail.takeWhile Char.isDigit)
  else some (neg, r.takeWhile Char.isDigit, [])

/-- The sign handling of one anchored match: an optional leading minus sign,
then `matchDigits` on the remainder. -/
def matchNumberAt (s : List Char) : Option (Bool × List Char × List Char) :=
  let neg := decide (s.head? = some '-')
  matchDigits neg (if neg then s.tail else s)

/-- `re.search` for the pattern above: the leftmost position at which the
pattern matches (src/app.py line 37). -/
def searchNumber : List Char → Option (Bool × List Char × List Char)
  | [] => none
  | c :: cs =>
    match matchNumberAt (c :: cs) with
    | some r => some r
    | none => searchNumber cs

/-- The natural number denoted by a run of decimal digits. -/
def digitsToNat (ds : List Char) : Nat :=
  ds.foldl (fun n c => 10 * n + (c.toNat - '0'.toNat)) 0

/-- The rational denoted by a sign, integer digits and fractional digits —
the exact value of `float(match.group(1))` (src/app.py line 39):
`±(ip + fp / 10 ^ |fp|)`, written over integers for computability. -/
def numValue (neg : Bool) (ip fp : List Char) : ℚ :=
  let n : Int := (digitsToNat ip * 10 ^ fp.length + digitsToNat fp : Nat)
  mkRat (if neg then -n else n) (10 ^ fp.length)

/-- Shallow embedding of `clean_coord` (src/app.py lines 33–42, identical in
src/app2.py): absent input yields `None`; otherwise stringify, turn commas
into points, strip, search for the first signed decimal-or-integer number,
and accept it only when it lies within `[-180, 180]`. -/
def clean_coord (c : Cell) : Option ℚ :=
  if pyIsNa c then none
  else
    match searchNumber (pyStrip (replaceCommas (pyStr c))) with
    | some (neg, ip, fp) =>
      let val := numValue neg ip fp
      if -180 ≤ val ∧ val ≤ 180 then some val else none
    | none => none

/-- The coordinate-cleaning function exactly as the specification words it:
(a) replace every decimal comma with a decimal point, (b) extract the first
signed decimal-or-integer number by pattern matching, (c) return that number
only if its magnitude is at most 180; in every other case (no number found,
magnitude above 180, or absent input) return absent. -/
def clean_coord_spec (c : Cell) : Option ℚ :=
  match c with
  | .null => none
  | c =>
    match searchNumber (replaceCommas (pyStr c)) with
    | some (neg, ip, fp) =>
      let val := numValue neg ip fp
      if |val| ≤ 180 then some val else none
    | none => none

/-- A calendar date, as produced by the date parser. -/
structure Date where
  day : Nat
  month : Nat
  year : Nat
  deriving DecidableEq

/-- Day-first parse of a `d/m/Y` date string, modelling
`pd.to_datetime(..., dayfirst=True, errors='coerce')` on the textual dates
of the CENIPA tables (src/app.py line 29): digits, slash, digits, slash,
digits, with the first component read as the day; any other shape or an
out-of-range component yields an absent date rather than an error. -/
def parseDateDayFirst (s : List Char) : Option Date :=
  let d := s.takeWhile Char.isDigit
  let r1 := s.dropWhile Char.isDigit
  if d = [] then none
  else if r1.head? = some '/' then
    let m := r1.tail.takeWhile Char.isDigit
    let r2 := r1.tail.dropWhile Char.isDigit
    if m = [] then none
    else if r2.head? = some '/' then
      let y := r2.tail.takeWhile Char.isDigit
      let r3 := r2.tail.dropWhile Char.isDigit
      if y = [] ∨ r3 ≠ [] then none
      else
        let dv := digitsToNat d
        let mv := digitsToNat m
        let yv := digitsToNat y
        if 1 ≤ dv ∧ dv ≤ 31 ∧ 1 ≤ mv ∧ mv ≤ 12 ∧ 1 ≤ yv then some ⟨dv, mv, yv⟩
        else none
    else none
  else none

/-- `pd.to_datetime(..., dayfirst=True, errors='coerce')` on one cell:
an absent or non-string cell coerces to `NaT` (src/app.py line 29). -/
def pd_to_datetime_coerce (c : Cell) : Option Date :=
  match c with
  | .str s => parseDateDayFirst s
  | _ => none

/-- Whole-string numeric parse of a cell's text, modelling the conversion
performed by `pd.to_numeric(..., errors='coerce')` (src/app.py line 55):
optional surrounding whitespace, optional sign, then either digits with an
optional fractional part, or a bare fractional part; anything else is
unparseable and coerces to absent. -/
def floatOfString (s : List Char) : Option ℚ :=
  let t := pyStrip s
  let p : Bool × List Char :=
    if t.head? = some '-' then (true, t.tail)
    else if t.head? = some '+' then (false, t.tail)
    else (false, t)
  let ip := p.2.takeWhile Char.isDigit
  let r2 := p.2.dropWhile Char.isDigit
  if r2 = [] then
    if ip = [] then none else some (numValue p.1 ip [])
  else if r2.head? = some '.' then
    let fp := r2.tail.takeWhile Char.isDigit
    let r3 := r2.tail.dropWhile Char.isDigit
    if r3 = [] then
      if ip = [] ∧ fp = [] then none else some (numValue p.1 ip fp)
    else none
  else none

/-- `pd.to_numeric(..., errors='coerce')` on one cell. -/
def pd_to_numeric (c : Cell) : Option ℚ :=
  match c with
  | .null => none
  | .int i => some (mkRat i 1)
  | .str s => floatOfString s

/-- `Series.fillna(sentinel)` on one cell. -/
def fillnaCell (c : Cell) (sentinel : List Char) : Cell :=
  match c with
  | .null => .str sentinel
  | c => c

/-- A raw row of `data/ocorrencia.csv` (the columns the pipeline touches). -/
structure OcorrenciaRow where
  codigo_ocorrencia : Int
  ocorrencia_classificacao : Cell
  ocorrencia_dia : Cell
  ocorrencia_uf : Cell
  ocorrencia_cidade : Cell
  ocorrencia_latitude : Cell
  ocorrencia_longitude : Cell
  deriving DecidableEq

/-- A cleaned Occurrence row: parsed date, derived year, cleaned
coordinates; columns stay nullable exactly as in the dataframe. -/
structure OcorrenciaClean where
  codigo_ocorrencia : Int
  ocorrencia_classificacao : Cell
  ocorrencia_dia : Option Date
  ocorrencia_ano : Option Int
  ocorrencia_uf : Cell
  ocorrencia_cidade : Cell
  latitude : Option ℚ
  longitude : Option ℚ
  deriving DecidableEq

/-- Per-row part of the Occurrence cleaning (src/app.py lines 29–45):
parse the date, derive the year from it, clean both coordinates. -/
def cleanOcorrenciaRow (r : OcorrenciaRow) : OcorrenciaClean :=
  let dia := pd_to_datetime_coerce r.ocorrencia_dia
  { codigo_ocorrencia := r.codigo_ocorrencia
    ocorrencia_classificacao := r.ocorrencia_classificacao
    ocorrencia_dia := dia
    ocorrencia_ano := dia.map fun d => (d.year : Int)
    ocorrencia_uf := r.ocorrencia_uf
    ocorrencia_cidade := r.ocorrencia_cidade
    latitude := clean_coord r.ocorrencia_latitude
    longitude := clean_coord r.ocorrencia_longitude }

/-- `Series.between(lo, hi, inclusive='both')` on a nullable value:
absent compares `False` (src/app.py lines 49–50). -/
def optBetween (x : Option ℚ) (lo hi : ℚ) : Bool :=
  match x with
  | some v => decide (lo ≤ v ∧ v ≤ hi)
  | none => false

/-- The cleaned Occurrence table (src/app.py lines 29–53): clean each row,
keep rows whose latitude is in `[-34, 6]` and longitude in `[-74, -34]`
(both inclusive), then drop rows still missing year, state code, latitude
or longitude.  The final `astype(int)` is the identity in this model. -/
def clean_ocorrencia (rows : List OcorrenciaRow) : List OcorrenciaClean :=
  ((rows.map cleanOcorrenciaRow).filter fun r =>
      optBetween r.latitude (-34) 6 && optBetween r.longitude (-74) (-34)).filter fun r =>
    r.ocorrencia_ano.isSome && !(pyIsNa r.ocorrencia_uf) &&
      r.latitude.isSome && r.longitude.isSome

/-- A raw row of `data/aeronave.csv` (the columns the pipeline touches;
`aeronave_tipo_veiculo` stands for the columns the cleaning never reads). -/
structure AeronaveRow where
  codigo_ocorrencia2 : Int
  aeronave_fatalidades_total : Cell
  aeronave_registro_segmento : Cell
  aeronave_fase_operacao : Cell
  aeronave_tipo_veiculo : Cell
  deriving DecidableEq

/-- A cleaned Aircraft row: fatalities coerced to a plain number, the two
categorical columns still `Cell`-valued (filled with sentinels). -/
structure AeronaveClean where
  codigo_ocorrencia2 : Int
  aeronave_fatalidades_total : ℚ
  aeronave_registro_segmento : Cell
  aeronave_fase_operacao : Cell
  aeronave_tipo_veiculo : Cell
  deriving DecidableEq

/-- src/app.py line 55: `pd.to_numeric(..., errors='coerce').fillna(0)`
on the fatalities column; every other column passes through unchanged. -/
def coerceFatalidades (r : AeronaveRow) : AeronaveClean :=
  { codigo_ocorrencia2 := r.codigo_ocorrencia2
    aeronave_fatalidades_total := (pd_to_numeric r.aeronave_fatalidades_total).getD 0
    aeronave_registro_segmento := r.aeronave_registro_segmento
    aeronave_fase_operacao := r.aeronave_fase_operacao
    aeronave_tipo_veiculo := r.aeronave_tipo_veiculo }

/-- src/app.py line 56: fill an absent registration segment with the
sentinel label `INDETERMINADO`. -/
def fillSegmento (r : AeronaveClean) : AeronaveClean :=
  { r with aeronave_registro_segmento :=
      fillnaCell r.aeronave_registro_segmento "INDETERMINADO".data }

/-- src/app.py line 57: fill an absent operation phase with the sentinel
label `INDETERMININA` (sic, as written in the source). -/
def fillFase (r : AeronaveClean) : AeronaveClean :=
  { r with aeronave_fase_operacao :=
      fillnaCell r.aeronave_fase_operacao "INDETERMININA".data }

/-- The cleaned Aircraft table (src/app.py lines 55–57): all three column
operations are per-row maps, so no row is ever dropped. -/
def clean_aeronave (rows : List AeronaveRow) : List AeronaveClean :=
  rows.map fun r => fillFase (fillSegmento (coerceFatalidades r))

/-- A raw row of `data/fator_contribuinte.csv`. -/
structure FatorRow where
  codigo_ocorrencia3 : Int
  fator_area : Cell
  fator_nome : Cell
  deriving DecidableEq

/-- A raw row of `data/ocorrencia_tipo.csv`. -/
structure TipoRow where
  codigo_ocorrencia1 : Int
  ocorrencia_tipo : Cell
  deriving DecidableEq

/-- A raw row of `data/recomendacao.csv`. -/
structure RecomendacaoRow where
  recomendacao_status : Cell
  deriving DecidableEq

/-- src/app.py line 59: drop ContributingFactor rows with an absent area. -/
def clean_fator (rows : List FatorRow) : List FatorRow :=
  rows.filter fun r => !(pyIsNa r.fator_area)

/-- src/app.py line 60: drop OccurrenceType rows with an absent type. -/
def clean_tipo (rows : List TipoRow) : List TipoRow :=
  rows.filter fun r => !(pyIsNa r.ocorrencia_tipo)

/-- src/app.py line 61: fill an absent recommendation status with the
sentinel `INDETERMINADO`. -/
def clean_recomendacao (rows : List RecomendacaoRow) : List RecomendacaoRow :=
  rows.map fun r =>
    { recomendacao_status := fillnaCell r.recomendacao_status "INDETERMINADO".data }

/-- The classification value the dashboard filters on. -/
def acidenteCell : Cell := .str "ACIDENTE".data

/-- `pd.merge(df_aeronave, df_ocorrencia[[key, classification]], how='left')`
(src/app.py lines 201–207): every aircraft row is kept; an unmatched
occurrence reference yields an absent classification; a reference matched by
several occurrence rows yields one output row per match, in table order. -/
def merge_left (air : List AeronaveClean) (occ : List OcorrenciaClean) :
    List (AeronaveClean × Cell) :=
  air.flatMap fun a =>
    match occ.filter (fun o => decide (o.codigo_ocorrencia = a.codigo_ocorrencia2)) with
    | [] => [(a, Cell.null)]
    | ms => ms.map fun o => (a, o.ocorrencia_classificacao)

/-- The same merge with `how='inner'` (src/app2.py line 143): unmatched
aircraft rows are dropped. -/
def merge_inner (air : List AeronaveClean) (occ : List OcorrenciaClean) :
    List (AeronaveClean × Cell) :=
  air.flatMap fun a =>
    (occ.filter fun o => decide (o.codigo_ocorrencia = a.codigo_ocorrencia2)).map fun o =>
      (a, o.ocorrencia_classificacao)

/-- The post-join filter to classification `ACIDENTE`
(src/app.py lines 209–211, src/app2.py line 144). -/
def filter_acidente (l : List (AeronaveClean × Cell)) : List (AeronaveClean × Cell) :=
  l.filter fun p => decide (p.2 = acidenteCell)

/-- `df_aeronave_acidentes` of src/app.py (left join, then ACIDENTE filter). -/
def df_aeronave_acidentes_left (air : List AeronaveClean) (occ : List OcorrenciaClean) :
    List (AeronaveClean × Cell) :=
  filter_acidente (merge_left air occ)

/-- `df_aeronave_acidentes` of src/app2.py (inner join, then ACIDENTE filter). -/
def df_aeronave_acidentes_inner (air : List AeronaveClean) (occ : List OcorrenciaClean) :
    List (AeronaveClean × Cell) :=
  filter_acidente (merge_inner air occ)

/-- The distinct values of a column, in first-appearance order. -/
def distinctCells (xs : List Cell) : List Cell :=
  xs.foldl (fun acc x => if x ∈ acc then acc else acc ++ [x]) []

/-- How many times a value occurs in a column. -/
def countCell (xs : List Cell) (v : Cell) : Nat :=
  (xs.filter fun x => decide (x = v)).length

/-- Descending order on grouped counts. -/
def countDesc (a b : Cell × Nat) : Prop := b.2 ≤ a.2

instance : DecidableRel countDesc := fun a b => inferInstanceAs (Decidable (b.2 ≤ a.2))

instance : IsTotal (Cell × Nat) countDesc := ⟨fun a b => le_total b.2 a.2⟩

instance : IsTrans (Cell × Nat) countDesc := ⟨fun _ _ _ h1 h2 => le_trans h2 h1⟩

/-- `Series.value_counts()`: occurrence counts of the distinct non-absent
values, sorted descending by count (src/app.py line 221). -/
def value_counts (xs : List Cell) : List (Cell × Nat) :=
  List.insertionSort countDesc
    (((distinctCells xs).filter fun v => !(pyIsNa v)).map fun v => (v, countCell xs v))

/-- `.nlargest(n)`: the `n` entries with the largest counts, descending
(src/app.py lines 221 and 287). -/
def nlargest (n : Nat) (l : List (Cell × Nat)) : List (Cell × Nat) :=
  (List.insertionSort countDesc l).take n

/-- The grouped-count-then-top-10 view shape shared by `segmento_data`
(src/app.py line 221) and `tipo_data` (src/app.py line 287):
`value_counts().nlargest(10)`. -/
def top10_counts (xs : List Cell) : List (Cell × Nat) :=
  nlargest 10 (value_counts xs)

/-- `segmento_data` (src/app.py line 221): accident counts by registration
segment, top 10. -/
def segmento_data (air : List AeronaveClean) (occ : List OcorrenciaClean) :
    List (Cell × Nat) :=
  top10_counts ((df_aeronave_acidentes_left air occ).map fun p =>
    p.1.aeronave_registro_segmento)

/-- The input of one `load_data` run: the content of each of the five CSV
files and of the GeoJSON file; `none` models a file that is missing or that
fails to decode under the configured encoding — both cases the source
catches and turns into a `None` result (src/app.py lines 64–69, 82–90). -/
structure LoadInput where
  ocorrencia : Option (List OcorrenciaRow)
  aeronave : Option (List AeronaveRow)
  fator : Option (List FatorRow)
  tipo : Option (List TipoRow)
  recomendacao : Option (List RecomendacaoRow)
  geojson_br : Option (List Char)
  deriving DecidableEq

/-- The dictionary `load_data` returns on success (src/app.py lines 72–79). -/
structure DataDict where
  ocorrencia : List OcorrenciaClean
  aeronave : List AeronaveClean
  fator : List FatorRow
  tipo : List TipoRow
  recomendacao : List RecomendacaoRow
  geojson_br : List Char
  deriving DecidableEq

/-- Shallow embedding of `load_data` (src/app.py lines 14–90): if any of the
five CSV files or the GeoJSON file is missing or undecodable, the whole run
yields `none` (the source returns `None` from its exception handlers) and no
table at all; otherwise all five cleaned tables are returned together.
The caller stops on `none` (src/app.py line 95: `st.stop()`). -/
def load_data (inp : LoadInput) : Option DataDict :=
  match inp.ocorrencia, inp.aeronave, inp.fator, inp.tipo, inp.recomendacao with
  | some oc, some ae, some fa, some ti, some rc =>
    match inp.geojson_br with
    | some gj =>
      some { ocorrencia := clean_ocorrencia oc
             aeronave := clean_aeronave ae
             fator := clean_fator fa
             tipo := clean_tipo ti
             recomendacao := clean_recomendacao rc
             geojson_br := gj }
    | none => none
  | _, _, _, _, _ => none

/-! ### Concrete tables used by the spec's scenarios and by the witnesses -/

/-- A cleaned Occurrence row with just an id and a classification (the other
columns play no role in the join scenario). -/
def mkOccClean (id : Int) (classif : List Char) : OcorrenciaClean :=
  { codigo_ocorrencia := id
    ocorrencia_classificacao := .str classif
    ocorrencia_dia := none
    ocorrencia_ano := none
    ocorrencia_uf := .null
    ocorrencia_cidade := .null
    latitude := none
    longitude := none }

/-- A cleaned Aircraft row with just an occurrence reference and a segment. -/
def mkAirClean (ref : Int) (seg : List Char) : AeronaveClean :=
  { codigo_ocorrencia2 := ref
    aeronave_fatalidades_total := 0
    aeronave_registro_segmento := .str seg
    aeronave_fase_operacao := .null
    aeronave_tipo_veiculo := .null }

/-- The spec's join scenario: occurrences id=1 ACCIDENT and id=2 INCIDENT. -/
def scenario_occ : List OcorrenciaClean :=
  [mkOccClean 1 "ACIDENTE".data, mkOccClean 2 "INCIDENTE".data]

/-- The spec's join scenario: aircraft referencing occurrences 1, 2 and 3
(3 has no matching occurrence). -/
def scenario_air : List AeronaveClean :=
  [mkAirClean 1 "PARTICULAR".data, mkAirClean 2 "REGULAR".data,
   mkAirClean 3 "AGRICOLA".data]

/-- An Occurrence row that survives the whole cleaning pipeline. -/
def w_occ_row : OcorrenciaRow :=
  { codigo_ocorrencia := 1
    ocorrencia_classificacao := .str "ACIDENTE".data
    ocorrencia_dia := .str "10/05/2019".data
    ocorrencia_uf := .str "SP".data
    ocorrencia_cidade := .str "SAO PAULO".data
    ocorrencia_latitude := .str "-23,55".data
    ocorrencia_longitude := .str "-46,63".data }

/-- An Occurrence row whose date does not parse. -/
def w_occ_badrow : OcorrenciaRow :=
  { w_occ_row with ocorrencia_dia := .str "data invalida".data }

/-- An Aircraft row whose fatalities field holds a negative numeric string. -/
def c4_neg_row : AeronaveRow :=
  { codigo_ocorrencia2 := 7
    aeronave_fatalidades_total := .str "-1".data
    aeronave_registro_segmento := .str "PARTICULAR".data
    aeronave_fase_operacao := .str "POUSO".data
    aeronave_tipo_veiculo := .str "AVIAO".data }

/-- An Aircraft row whose fatalities field does not parse as a number. -/
def c4_abc_row : AeronaveRow :=
  { c4_neg_row with aeronave_fatalidades_total := .str "abc".data }

/-- A cleaned-Aircraft row with both categorical columns absent. -/
def c7_null_row : AeronaveClean :=
  { codigo_ocorrencia2 := 9
    aeronave_fatalidades_total := 2
    aeronave_registro_segmento := .null
    aeronave_fase_operacao := .null
    aeronave_tipo_veiculo := .str "AVIAO".data }

/-- A cleaned-Aircraft row with both categorical columns present. -/
def c7_full_row : AeronaveClean :=
  { c7_null_row with
    aeronave_registro_segmento := .str "PARTICULAR".data
    aeronave_fase_operacao := .str "POUSO".data }

/-- A column with eleven distinct labels whose counts 1..11 are pairwise
distinct (label `i` occurs `i+1` times). -/
def c6w_xs : List Cell :=
  (List.range 11).flatMap fun i => List.replicate (i + 1) (Cell.int i)

/-- A complete load input: all six files present. -/
def w_load_input : LoadInput :=
  { ocorrencia := some [w_occ_row]
    aeronave := some [c4_abc_row]
    fator := some []
    tipo := some []
    recomendacao := some []
    geojson_br := some "g".data }

/-- The same load input with the occurrence file missing. -/
def w_load_input_missing : LoadInput :=
  { w_load_input with ocorrencia := none }

/-! ### Theorems -/

/-- C10: the coordinate-cleaning function is total: for every input cell
(absent, numeric, or an arbitrary string) it returns either absent or a
value `v` with `-180 ≤ v ≤ 180`, and an absent input always yields absent. -/
theorem clean_coord_total (c : Cell) :
    (clean_coord c = none ∨ ∃ v, clean_coord c = some v ∧ -180 ≤ v ∧ v ≤ 180) ∧
    clean_coord Cell.null = none := by
  refine ⟨?_, rfl⟩
  unfold clean_coord
  split
  · exact Or.inl rfl
  · split
    · next neg ip fp heq =>
      by_cases h : -180 ≤ numValue neg ip fp ∧ numValue neg ip fp ≤ 180
      · exact Or.inr ⟨numValue neg ip fp, by simp [h], h.1, h.2⟩
      · exact Or.inl (by simp [h])
    · exact Or.inl rfl

/-- C9: the load-and-clean pipeline is a deterministic function of the file
contents alone: two runs on equal inputs return identical cleaned tables. -/
theorem load_data_deterministic (inp1 inp2 : LoadInput) (h : inp1 = inp2) :
    load_data inp1 = load_data inp2 := by
  rw [h]

/-- Witness for C9 at a concrete input. -/
theorem load_data_deterministic_witness :
    load_data w_load_input = load_data w_load_input :=
  load_data_deterministic w_load_input w_load_input rfl

/-- C8: a `load_data` run succeeds exactly when all six input files are
present and decodable, and a successful run returns all five cleaned tables
together — no partial dataset is ever produced. -/
theorem load_data_all_or_nothing (inp : LoadInput) :
    ((load_data inp).isSome = true ↔
      inp.ocorrencia.isSome = true ∧ inp.aeronave.isSome = true ∧
        inp.fator.isSome = true ∧ inp.tipo.isSome = true ∧
        inp.recomendacao.isSome = true ∧ inp.geojson_br.isSome = true) ∧
    ∀ d, load_data inp = some d →
      ∃ oc ae fa ti rc gj,
        inp.ocorrencia = some oc ∧ inp.aeronave = some ae ∧ inp.fator = some fa ∧
          inp.tipo = some ti ∧ inp.recomendacao = some rc ∧
          inp.geojson_br = some gj ∧
          d.ocorrencia = clean_ocorrencia oc ∧ d.aeronave = clean_aeronave ae ∧
          d.fator = clean_fator fa ∧ d.tipo = clean_tipo ti ∧
          d.recomendacao = clean_recomendacao rc ∧ d.geojson_br = gj := by
  obtain ⟨oc, ae, fa, ti, rc, gj⟩ := inp
  cases oc <;> cases ae <;> cases fa <;> cases ti <;> cases rc <;> cases gj <;>
    simp [load_data]

/-- Witness for C8: on a complete input, `load_data` yields all five cleaned
tables; applying the theorem discharges its hypothesis at a concrete run. -/
theorem load_data_all_or_nothing_witness :
    ∃ oc ae fa ti rc gj,
      w_load_input.ocorrencia = some oc ∧ w_load_input.aeronave = some ae ∧
        w_load_input.fator = some fa ∧ w_load_input.tipo = some ti ∧
        w_load_input.recomendacao = some rc ∧ w_load_input.geojson_br = some gj ∧
        (clean_ocorrencia [w_occ_row] : List OcorrenciaClean) = clean_ocorrencia oc ∧
        (clean_aeronave [c4_abc_row] : List AeronaveClean) = clean_aeronave ae ∧
        ([] : List FatorRow) = clean_fator fa ∧ ([] : List TipoRow) = clean_tipo ti ∧
        ([] : List RecomendacaoRow) = clean_recomendacao rc ∧ "g".data = gj :=
  (load_data_all_or_nothing w_load_input).2
    { ocorrencia := clean_ocorrencia [w_occ_row]
      aeronave := clean_aeronave [c4_abc_row]
      fator := []
      tipo := []
      recomendacao := []
      geojson_br := "g".data }
    rfl

/-- C4, counterexample: the claim "for every row of the cleaned Aircraft
table the fatalities field is non-negative" is false: the numeric string
`"-1"` parses under `pd.to_numeric` and passes through as `-1 < 0`. -/
theorem clean_aeronave_negative_counterexample :
    ∃ r ∈ clean_aeronave [c4_neg_row], r.aeronave_fatalidades_total < 0 := by
  decide

/-- C4, amended: for every input Aircraft table, the cleaning drops no row,
and every cleaned row's fatalities value is the numeric coercion of the raw
field with absent-or-unparseable values replaced by 0 (so the field is never
absent, and a non-numeric input such as `"abc"` yields exactly 0); the value
is non-negative whenever the raw field is, but a negative numeric input
passes through unchanged. -/
theorem clean_aeronave_fatalidades (rows : List AeronaveRow) :
    (clean_aeronave rows).length = rows.length ∧
    ∀ r ∈ rows,
      fillFase (fillSegmento (coerceFatalidades r)) ∈ clean_aeronave rows ∧
      (fillFase (fillSegmento (coerceFatalidades r))).aeronave_fatalidades_total =
        (pd_to_numeric r.aeronave_fatalidades_total).getD 0 ∧
      (pd_to_numeric r.aeronave_fatalidades_total = none →
        (fillFase (fillSegmento (coerceFatalidades r))).aeronave_fatalidades_total = 0) := by
  refine ⟨List.length_map _ _, fun r hr => ⟨List.mem_map_of_mem _ hr, rfl, fun h => ?_⟩⟩
  simp [fillFase, fillSegmento, coerceFatalidades, h]

/-- Witness for C4's amended theorem: the non-numeric input `"abc"` yields
a cleaned fatalities value of exactly 0 and the row is kept. -/
theorem clean_aeronave_fatalidades_witness :
    fillFase (fillSegmento (coerceFatalidades c4_abc_row)) ∈ clean_aeronave [c4_abc_row] ∧
    (fillFase (fillSegmento (coerceFatalidades c4_abc_row))).aeronave_fatalidades_total = 0 :=
  ⟨((clean_aeronave_fatalidades [c4_abc_row]).2 c4_abc_row (by decide)).1,
   ((clean_aeronave_fatalidades [c4_abc_row]).2 c4_abc_row (by decide)).2.2 (by decide)⟩

/-- C7: the two sentinel fills replace exactly an absent registration
segment with `INDETERMINADO` and an absent operation phase with
`INDETERMININA` (two distinct labels), leave every other column of the row
unchanged, and leave rows whose value was present entirely unchanged. -/
theorem aeronave_sentinel_fills (r : AeronaveClean) :
    (pyIsNa r.aeronave_registro_segmento = true →
      (fillSegmento r).aeronave_registro_segmento = Cell.str "INDETERMINADO".data) ∧
    (pyIsNa r.aeronave_registro_segmento = false → fillSegmento r = r) ∧
    (fillSegmento r).codigo_ocorrencia2 = r.codigo_ocorrencia2 ∧
    (fillSegmento r).aeronave_fatalidades_total = r.aeronave_fatalidades_total ∧
    (fillSegmento r).aeronave_fase_operacao = r.aeronave_fase_operacao ∧
    (fillSegmento r).aeronave_tipo_veiculo = r.aeronave_tipo_veiculo ∧
    (pyIsNa r.aeronave_fase_operacao = true →
      (fillFase r).aeronave_fase_operacao = Cell.str "INDETERMININA".data) ∧
    (pyIsNa r.aeronave_fase_operacao = false → fillFase r = r) ∧
    (fillFase r).codigo_ocorrencia2 = r.codigo_ocorrencia2 ∧
    (fillFase r).aeronave_fatalidades_total = r.aeronave_fatalidades_total ∧
    (fillFase r).aeronave_registro_segmento = r.aeronave_registro_segmento ∧
    (fillFase r).aeronave_tipo_veiculo = r.aeronave_tipo_veiculo ∧
    Cell.str "INDETERMINADO".data ≠ Cell.str "INDETERMININA".data := by
  obtain ⟨k, fat, seg, fase, tv⟩ := r
  refine ⟨?_, ?_, rfl, rfl, rfl, rfl, ?_, ?_, rfl, rfl, rfl, rfl, by decide⟩ <;>
    intro h <;> cases seg <;> cases fase <;>
    simp_all [pyIsNa, fillSegmento, fillFase, fillnaCell]

/-- Witness for C7: the fills at a row with both columns absent and at a row
with both columns present, with the theorem's hypotheses discharged there. -/
theorem aeronave_sentinel_fills_witness :
    (fillSegmento c7_null_row).aeronave_registro_segmento =
      Cell.str "INDETERMINADO".data ∧
    (fillFase c7_null_row).aeronave_fase_operacao =
      Cell.str "INDETERMININA".data ∧
    fillSegmento c7_full_row = c7_full_row ∧ fillFase c7_full_row = c7_full_row :=
  ⟨(aeronave_sentinel_fills c7_null_row).1 (by decide),
   (aeronave_sentinel_fills c7_null_row).2.2.2.2.2.2.1 (by decide),
   (aeronave_sentinel_fills c7_full_row).2.1 (by decide),
   (aeronave_sentinel_fills c7_full_row).2.2.2.2.2.2.2.1 (by decide)⟩

/-- C1: every row of the cleaned Occurrence table has a latitude in the
closed interval `[-34, 6]` and a longitude in `[-74, -34]` (boundaries
included), and is missing none of year, state code, latitude, longitude. -/
theorem clean_ocorrencia_invariant (rows : List OcorrenciaRow) (r : OcorrenciaClean)
    (hr : r ∈ clean_ocorrencia rows) :
    (∃ la, r.latitude = some la ∧ -34 ≤ la ∧ la ≤ 6) ∧
    (∃ lo, r.longitude = some lo ∧ -74 ≤ lo ∧ lo ≤ -34) ∧
    r.ocorrencia_ano.isSome = true ∧ pyIsNa r.ocorrencia_uf = false ∧
    r.latitude.isSome = true ∧ r.longitude.isSome = true := by
  unfold clean_ocorrencia at hr
  rw [List.mem_filter] at hr
  obtain ⟨hr1, hcond2⟩ := hr
  rw [List.mem_filter] at hr1
  obtain ⟨-, hcond1⟩ := hr1
  simp only [Bool.and_eq_true, Bool.not_eq_true'] at hcond1 hcond2
  obtain ⟨hlat, hlon⟩ := hcond1
  obtain ⟨⟨⟨hano, huf⟩, hlats⟩, hlons⟩ := hcond2
  refine ⟨?_, ?_, hano, huf, hlats, hlons⟩
  · cases hv : r.latitude with
    | none => rw [hv] at hlat; exact absurd hlat (by simp [optBetween])
    | some la =>
      rw [hv] at hlat
      exact ⟨la, rfl, (of_decide_eq_true hlat).1, (of_decide_eq_true hlat).2⟩
  · cases hv : r.longitude with
    | none => rw [hv] at hlon; exact absurd hlon (by simp [optBetween])
    | some lo =>
      rw [hv] at hlon
      exact ⟨lo, rfl, (of_decide_eq_true hlon).1, (of_decide_eq_true hlon).2⟩

/-- Witness for C1 at a concrete pipeline run. -/
theorem clean_ocorrencia_invariant_witness :
    (∃ la, (cleanOcorrenciaRow w_occ_row).latitude = some la ∧ -34 ≤ la ∧ la ≤ 6) ∧
    (∃ lo, (cleanOcorrenciaRow w_occ_row).longitude = some lo ∧ -74 ≤ lo ∧ lo ≤ -34) ∧
    (cleanOcorrenciaRow w_occ_row).ocorrencia_ano.isSome = true ∧
    pyIsNa (cleanOcorrenciaRow w_occ_row).ocorrencia_uf = false ∧
    (cleanOcorrenciaRow w_occ_row).latitude.isSome = true ∧
    (cleanOcorrenciaRow w_occ_row).longitude.isSome = true :=
  clean_ocorrencia_invariant [w_occ_row] (cleanOcorrenciaRow w_occ_row) (by decide)

/-- C2: every row of the cleaned Occurrence table carries a parsed
(day-first) date, and its year is exactly that date's calendar year; each
cleaned row comes from an input row whose date parsed, and a row whose date
fails to parse never reaches the cleaned table. -/
theorem clean_ocorrencia_year_of_date :
    (∀ (rows : List OcorrenciaRow) (r : OcorrenciaClean), r ∈ clean_ocorrencia rows →
      (∃ d, r.ocorrencia_dia = some d ∧ r.ocorrencia_ano = some (d.year : Int)) ∧
      ∃ src ∈ rows, r = cleanOcorrenciaRow src ∧
        (pd_to_datetime_coerce src.ocorrencia_dia).isSome = true) ∧
    ∀ (rows : List OcorrenciaRow) (src : OcorrenciaRow), src ∈ rows →
      pd_to_datetime_coerce src.ocorrencia_dia = none →
      cleanOcorrenciaRow src ∉ clean_ocorrencia rows := by
  constructor
  · intro rows r hr
    have hano : r.ocorrencia_ano.isSome = true := by
      unfold clean_ocorrencia at hr
      rw [List.mem_filter] at hr
      have := hr.2
      simp only [Bool.and_eq_true] at this
      exact this.1.1.1
    obtain ⟨src, hsrc, hre⟩ : ∃ src ∈ rows, cleanOcorrenciaRow src = r := by
      unfold clean_ocorrencia at hr
      rw [List.mem_filter] at hr
      have h1 := hr.1
      rw [List.mem_filter] at h1
      exact List.mem_map.mp h1.1
    refine ⟨?_, src, hsrc, hre.symm, ?_⟩
    · cases hd : pd_to_datetime_coerce src.ocorrencia_dia with
      | none =>
        rw [← hre] at hano
        simp [cleanOcorrenciaRow, hd] at hano
      | some d =>
        refine ⟨d, ?_, ?_⟩ <;> rw [← hre] <;> simp [cleanOcorrenciaRow, hd]
    · cases hd : pd_to_datetime_coerce src.ocorrencia_dia with
      | none => rw [← hre] at hano; simp [cleanOcorrenciaRow, hd] at hano
      | some d => rfl
  · intro rows src hsrc hnone hmem
    unfold clean_ocorrencia at hmem
    rw [List.mem_filter] at hmem
    have := hmem.2
    simp only [Bool.and_eq_true] at this
    have hano := this.1.1.1
    simp [cleanOcorrenciaRow, hnone] at hano

/-- Witness for C2: a parsed row's year is its date's year, and an input row
with an unparseable date is absent from the cleaned table. -/
theorem clean_ocorrencia_year_of_date_witness :
    ((∃ d, (cleanOcorrenciaRow w_occ_row).ocorrencia_dia = some d ∧
        (cleanOcorrenciaRow w_occ_row).ocorrencia_ano = some (d.year : Int)) ∧
      ∃ src ∈ [w_occ_row], cleanOcorrenciaRow w_occ_row = cleanOcorrenciaRow src ∧
        (pd_to_datetime_coerce src.ocorrencia_dia).isSome = true) ∧
    cleanOcorrenciaRow w_occ_badrow ∉ clean_ocorrencia [w_occ_row, w_occ_badrow] :=
  ⟨clean_ocorrencia_year_of_date.1 [w_occ_row] (cleanOcorrenciaRow w_occ_row) (by decide),
   clean_ocorrencia_year_of_date.2 [w_occ_row, w_occ_badrow] w_occ_badrow
     (by decide) (by decide)⟩

/-- C5: for every Occurrence and Aircraft table, the left join followed by
the ACCIDENT filter returns exactly the rows of the inner join followed by
the same filter; in the spec's scenario both variants return exactly one row
(`PARTICULAR`), while the unmatched `occ_ref=3` aircraft appears in the left
join's pre-filter result with an absent classification but is absent from
the inner join's pre-filter result. -/
theorem join_filter_equivalence :
    (∀ (air : List AeronaveClean) (occ : List OcorrenciaClean),
      df_aeronave_acidentes_left air occ = df_aeronave_acidentes_inner air occ) ∧
    (df_aeronave_acidentes_left scenario_air scenario_occ).map
        (fun p => p.1.aeronave_registro_segmento) = [Cell.str "PARTICULAR".data] ∧
    (df_aeronave_acidentes_inner scenario_air scenario_occ).map
        (fun p => p.1.aeronave_registro_segmento) = [Cell.str "PARTICULAR".data] ∧
    (∃ p ∈ merge_left scenario_air scenario_occ,
      p.1.codigo_ocorrencia2 = 3 ∧ p.2 = Cell.null) ∧
    ∀ p ∈ merge_inner scenario_air scenario_occ, p.1.codigo_ocorrencia2 ≠ 3 := by
  refine ⟨?_, by decide, by decide, by decide, by decide⟩
  intro air occ
  unfold df_aeronave_acidentes_left df_aeronave_acidentes_inner
  induction air with
  | nil => rfl
  | cons a as ih =>
    unfold merge_left merge_inner filter_acidente at ih ⊢
    simp only [List.flatMap_cons, List.filter_append]
    rw [ih]
    congr 1
    cases hms : occ.filter (fun o => decide (o.codigo_ocorrencia = a.codigo_ocorrencia2)) with
    | nil => simp [acidenteCell]
    | cons m ms => rfl

/-- Witness for C5: the matched `occ_ref=1` pair of the scenario's inner
join does not reference occurrence 3, by the theorem's last conjunct. -/
theorem join_filter_equivalence_witness :
    (mkAirClean 1 "PARTICULAR".data, Cell.str "ACIDENTE".data).1.codigo_ocorrencia2 ≠ 3 :=
  join_filter_equivalence.2.2.2.2
    (mkAirClean 1 "PARTICULAR".data, Cell.str "ACIDENTE".data) (by decide)

/-- Auxiliary fact for C6: taking 10 of a sorted permutation of an
11-element list with pairwise distinct counts keeps everything but the
unique minimum. -/
theorem take10_sorted_aux (l s : List (Cell × Nat)) (hperm : List.Perm s l)
    (hsorted : s.Pairwise countDesc) (h11 : l.length = 11)
    (hdist : l.Pairwise fun a b => a.2 ≠ b.2) :
    (s.take 10).length = 10 ∧
    (s.take 10).Pairwise countDesc ∧
    ∃ m ∈ l, (∀ p ∈ l, p ≠ m → m.2 < p.2) ∧
      ∀ p, p ∈ s.take 10 ↔ p ∈ l ∧ p ≠ m := by
  have hslen : s.length = 11 := hperm.length_eq.trans h11
  have hsdist : s.Pairwise fun a b => a.2 ≠ b.2 :=
    (hperm.pairwise_iff fun h => h.symm).mpr hdist
  obtain ⟨m, hm⟩ : ∃ m, s.drop 10 = [m] :=
    List.length_eq_one.mp (by simp [hslen])
  have hsplit : s = s.take 10 ++ [m] := by
    conv_lhs => rw [← List.take_append_drop 10 s]
    rw [hm]
  have hcross := (List.pairwise_append.mp (hsplit ▸ hsorted)).2.2
  have hcrossd := (List.pairwise_append.mp (hsplit ▸ hsdist)).2.2
  have hmnot : m ∉ s.take 10 := fun hmem =>
    absurd rfl (hcrossd m hmem m (List.mem_singleton.mpr rfl))
  have hmemiff : ∀ p, p ∈ s.take 10 ↔ p ∈ l ∧ p ≠ m := by
    intro p
    constructor
    · intro hp
      refine ⟨hperm.mem_iff.mp (hsplit ▸ List.mem_append_left _ hp), ?_⟩
      rintro rfl
      exact hmnot hp
    · rintro ⟨hpl, hpne⟩
      have hps : p ∈ s := hperm.mem_iff.mpr hpl
      rcases List.mem_append.mp (hsplit ▸ hps) with h | h
      · exact h
      · exact absurd (List.mem_singleton.mp h) hpne
  refine ⟨?_, ?_, m, ?_, ?_, hmemiff⟩
  · simp [List.length_take, hslen]
  · exact hsorted.sublist (List.take_sublist 10 s)
  · exact hperm.mem_iff.mp (hsplit ▸ List.mem_append_right _ (List.mem_singleton.mpr rfl))
  · intro p hpl hpne
    have hp10 : p ∈ s.take 10 := hmemiff p |>.mpr ⟨hpl, hpne⟩
    exact lt_of_le_of_ne (hcross p hp10 m (List.mem_singleton.mpr rfl))
      fun h => (hcrossd p hp10 m (List.mem_singleton.mpr rfl)) h.symm

/-- C6: for the grouped-count view with a top-10 truncation, a column whose
grouped counts list eleven categories with pairwise distinct counts yields
exactly 10 rows, sorted descending by count, keeping a category exactly when
it is not the unique lowest-count one. -/
theorem top10_counts_spec (xs : List Cell)
    (h11 : (value_counts xs).length = 11)
    (hdist : (value_counts xs).Pairwise fun a b => a.2 ≠ b.2) :
    (top10_counts xs).length = 10 ∧
    (top10_counts xs).Pairwise countDesc ∧
    ∃ m ∈ value_counts xs,
      (∀ p ∈ value_counts xs, p ≠ m → m.2 < p.2) ∧
      ∀ p, p ∈ top10_counts xs ↔ p ∈ value_counts xs ∧ p ≠ m :=
  take10_sorted_aux (value_counts xs) (List.insertionSort countDesc (value_counts xs))
    (List.perm_insertionSort countDesc (value_counts xs))
    (List.sorted_insertionSort countDesc (value_counts xs)) h11 hdist

set_option maxRecDepth 4000 in
/-- Witness for C6 on a column with eleven distinct labels of counts
1 through 11. -/
theorem top10_counts_spec_witness :
    (top10_counts c6w_xs).length = 10 ∧
    (top10_counts c6w_xs).Pairwise countDesc ∧
    ∃ m ∈ value_counts c6w_xs,
      (∀ p ∈ value_counts c6w_xs, p ≠ m → m.2 < p.2) ∧
      ∀ p, p ∈ top10_counts c6w_xs ↔ p ∈ value_counts c6w_xs ∧ p ≠ m :=
  top10_counts_spec c6w_xs (by decide) (by decide)

/-- A whitespace character is not a digit, a minus sign or a point. -/
theorem ws_not_digit_dash_dot {c : Char} (h : c.isWhitespace = true) :
    c.isDigit = false ∧ c ≠ '-' ∧ c ≠ '.' := by
  simp only [Char.isWhitespace, Bool.or_eq_true, decide_eq_true_eq] at h
  rcases h with ((h | h) | h) | h <;> subst h <;> refine ⟨by decide, by decide, by decide⟩

/-- A run of whitespace starts with no digit. -/
theorem takeWhile_isDigit_ws {w : List Char} (hw : ∀ c ∈ w, c.isWhitespace = true) :
    w.takeWhile Char.isDigit = [] := by
  cases w with
  | nil => rfl
  | cons c cs =>
    have := (ws_not_digit_dash_dot (hw c (List.mem_cons_self c cs))).1
    simp [List.takeWhile_cons, this]

/-- Appending a suffix that yields no take keeps `takeWhile` unchanged. -/
theorem takeWhile_append_nil {p : Char → Bool} {w : List Char}
    (hw : w.takeWhile p = []) (x : List Char) :
    (x ++ w).takeWhile p = x.takeWhile p := by
  induction x with
  | nil => simpa using hw
  | cons c cs ih => by_cases hc : p c <;> simp [List.takeWhile_cons, hc, ih]

/-- A list whose `takeWhile` is empty is untouched by `dropWhile`. -/
theorem dropWhile_self_of_takeWhile_nil {p : Char → Bool} {w : List Char}
    (hw : w.takeWhile p = []) : w.dropWhile p = w := by
  cases w with
  | nil => rfl
  | cons c cs =>
    rw [List.takeWhile_cons] at hw
    by_cases hc : p c
    · simp [hc] at hw
    · simp [hc]

/-- Appending a suffix that yields no take pushes through `dropWhile`. -/
theorem dropWhile_append_keep {p : Char → Bool} {w : List Char}
    (hw : w.takeWhile p = []) (x : List Char) :
    (x ++ w).dropWhile p = x.dropWhile p ++ w := by
  induction x with
  | nil => simp [dropWhile_self_of_takeWhile_nil hw]
  | cons c cs ih => by_cases hc : p c <;> simp [List.dropWhile_cons, hc, ih]

/-- Appending trailing whitespace does not change the digits part of an
anchored match. -/
theorem matchDigits_append_ws {w : List Char} (hw : ∀ c ∈ w, c.isWhitespace = true)
    (b : Bool) (x : List Char) :
    matchDigits b (x ++ w) = matchDigits b x := by
  have hwd : w.takeWhile Char.isDigit = [] := takeWhile_isDigit_ws hw
  simp only [matchDigits, takeWhile_append_nil hwd x, dropWhile_append_keep hwd x]
  by_cases hip : x.takeWhile Char.isDigit = []
  · simp [hip]
  · cases hr2 : x.dropWhile Char.isDigit with
    | nil =>
      simp only [hip, if_false, List.nil_append]
      cases w with
      | nil => rfl
      | cons d ws =>
        have hdot := (ws_not_digit_dash_dot (hw d (List.mem_cons_self d ws))).2.2
        simp [hdot]
    | cons d r2' =>
      by_cases hdot : d = '.'
      · subst hdot
        simp [hip, takeWhile_append_nil hwd r2']
      · simp [hip, hdot]

/-- Appending trailing whitespace does not change an anchored match. -/
theorem matchNumberAt_append_ws {w : List Char} (hw : ∀ c ∈ w, c.isWhitespace = true)
    {t : List Char} (ht : t ≠ []) :
    matchNumberAt (t ++ w) = matchNumberAt t := by
  cases t with
  | nil => exact absurd rfl ht
  | cons c t' =>
    show matchNumberAt (c :: (t' ++ w)) = matchNumberAt (c :: t')
    simp only [matchNumberAt, List.head?_cons, List.tail_cons]
    cases hneg : decide ((some c : Option Char) = some '-') with
    | true =>
      simp only [if_pos rfl]
      exact matchDigits_append_ws hw _ t'
    | false =>
      simp only [Bool.false_eq_true, if_false]
      rw [← List.cons_append]
      exact matchDigits_append_ws hw _ (c :: t')

/-- A match never starts at a whitespace character. -/
theorem matchNumberAt_ws_head {c : Char} (hc : c.isWhitespace = true) (cs : List Char) :
    matchNumberAt (c :: cs) = none := by
  obtain ⟨hd, hdash, -⟩ := ws_not_digit_dash_dot hc
  have hnegf : decide ((c :: cs).head? = some '-') = false := by simp [hdash]
  simp only [matchNumberAt, hnegf, Bool.false_eq_true, if_false]
  simp [matchDigits, List.takeWhile_cons, hd]

/-- The search finds nothing in pure whitespace. -/
theorem searchNumber_ws {w : List Char} (hw : ∀ c ∈ w, c.isWhitespace = true) :
    searchNumber w = none := by
  induction w with
  | nil => rfl
  | cons c cs ih =>
    rw [searchNumber, matchNumberAt_ws_head (hw c (List.mem_cons_self c cs))]
    exact ih fun d hd => hw d (List.mem_cons_of_mem c hd)

/-- Appending trailing whitespace does not change the search result. -/
theorem searchNumber_append_ws {w : List Char} (hw : ∀ c ∈ w, c.isWhitespace = true) :
    ∀ t, searchNumber (t ++ w) = searchNumber t := by
  intro t
  induction t with
  | nil => simpa using searchNumber_ws hw
  | cons c t' ih =>
    have hm := matchNumberAt_append_ws hw (t := c :: t') (List.cons_ne_nil c t')
    rw [List.cons_append] at hm
    rw [List.cons_append, searchNumber, hm, searchNumber]
    cases matchNumberAt (c :: t') with
    | some r => rfl
    | none => exact ih

/-- Removing leading whitespace does not change the search result. -/
theorem searchNumber_dropWhile_ws (s : List Char) :
    searchNumber (s.dropWhile Char.isWhitespace) = searchNumber s := by
  induction s with
  | nil => rfl
  | cons c cs ih =>
    by_cases hc : c.isWhitespace
    · rw [List.dropWhile_cons_of_pos hc, ih, searchNumber, matchNumberAt_ws_head hc]
    · rw [List.dropWhile_cons_of_neg hc]

/-- Stripping surrounding whitespace does not change the search result:
the first number appearing in the stripped string is the first number of
the original string. -/
theorem searchNumber_pyStrip (s : List Char) :
    searchNumber (pyStrip s) = searchNumber s := by
  rw [← searchNumber_dropWhile_ws s]
  have hdecomp : s.dropWhile Char.isWhitespace =
      pyStrip s ++ ((s.dropWhile Char.isWhitespace).reverse.takeWhile
        Char.isWhitespace).reverse := by
    conv_lhs =>
      rw [← List.reverse_reverse (s.dropWhile Char.isWhitespace),
        ← List.takeWhile_append_dropWhile (p := Char.isWhitespace)
          (l := (s.dropWhile Char.isWhitespace).reverse)]
    rw [List.reverse_append]
    rfl
  have hws : ∀ c ∈ ((s.dropWhile Char.isWhitespace).reverse.takeWhile
      Char.isWhitespace).reverse, c.isWhitespace = true := fun c hc =>
    List.mem_takeWhile_imp (List.mem_reverse.mp hc)
  rw [hdecomp, searchNumber_append_ws hws]

/-- C3: the coordinate-cleaning function computes exactly what the spec
describes: normalize decimal commas to points, extract the first signed
decimal-or-integer number by pattern matching, and return it only if its
magnitude is at most 180 — otherwise (no number, magnitude above 180, or
absent input) return absent, never zero. -/
theorem clean_coord_eq_spec (c : Cell) : clean_coord c = clean_coord_spec c := by
  cases c with
  | null => rfl
  | int i =>
    simp only [clean_coord, clean_coord_spec, pyIsNa, Bool.false_eq_true, if_false,
      searchNumber_pyStrip]
    cases searchNumber (replaceCommas (pyStr (Cell.int i))) with
    | none => rfl
    | some r =>
      obtain ⟨neg, ip, fp⟩ := r
      simp [abs_le]
  | str s =>
    simp only [clean_coord, clean_coord_spec, pyIsNa, Bool.false_eq_true, if_false,
      searchNumber_pyStrip]
    cases searchNumber (replaceCommas (pyStr (Cell.str s))) with
    | none => rfl
    | some r =>
      obtain ⟨neg, ip, fp⟩ := r
      simp [abs_le]

end Cenipa
